import Mathlib

/-!
Shallow embedding of the istio-pilot charm reconciliation engine
(src/charms/istio-pilot/src/charm.py) and proofs about its
reconciliation passes.

The charm's event handlers are modelled as pure functions from an input
snapshot (relation data, configuration, cluster service state) to a pass
result recording the status set, whether the event was deferred, and the
ordered trace of cluster mutations (kubectl delete / apply calls).
Python dictionaries with insertion order are modelled as association
lists; Python truthiness of optional strings is modelled explicitly.
-/

/-- Status value set on the unit by a handler, mirroring
ops.model WaitingStatus / ActiveStatus / BlockedStatus. -/
inductive Status where
  | waiting (msg : String)
  | active
  | blocked (msg : String)
deriving DecidableEq, Repr

/-- One cluster mutation or relation side effect issued by a handler, in
order: a label-scoped kubectl delete, a kubectl apply of a manifest
document, or a send of per-unit URLs over the relation. -/
inductive Effect where
  | delete (kinds : String) (selector : String)
  | apply (doc : String)
  | sendUrls (urls : List (String × String))
deriving DecidableEq, Repr

/-- One load-balancer ingress entry of a service status
(an element of status.loadBalancer.ingress); a missing key is none. -/
structure LBIngress where
  hostname : Option String
  ip : Option String
deriving DecidableEq, Repr

/-- A service object returned by the kubectl get over the
istio=ingressgateway label selector, reduced to the only field the charm
reads: status.loadBalancer.ingress (missing key gives the empty list). -/
structure GatewaySvc where
  lbIngress : List LBIngress
deriving DecidableEq, Repr

/-- One shared-ingress route declaration as read from relation data: the
fields the charm consumes. Optional fields model keys the declarant may
omit from the mapping. -/
structure Route where
  ns : Option String
  prefixPath : String
  rewrite : Option String
  service : String
  port : Nat
deriving DecidableEq, Repr

/-- Key of a route declaration: the (relation instance id, declaring
application name) pair under which get_data() files it. -/
abbrev RouteKey := Nat × String

/-- One entry of the ingress relation data mapping. -/
abbrev RouteEntry := RouteKey × Route

/-- One auth route declaration from the ingress-auth relation: service
may be absent or empty (Python falsy), header lists default to empty. -/
structure AuthRoute where
  service : Option String
  port : Nat
  allowedRequestHeaders : List String
  allowedResponseHeaders : List String
deriving DecidableEq, Repr

/-- One unit of a per-unit ingress request, carrying its name and its
declared path prefix. -/
structure UnitRef where
  name : String
  prefixPath : String
deriving DecidableEq, Repr

/-- A per-unit ingress request as returned by
ingress_per_unit.get_request(event.relation). -/
structure PerUnitRequest where
  name : String
  units : List UnitRef
deriving DecidableEq, Repr

/-- The snapshot of charm state a reconciliation pass reads: static
configuration, the cluster services matching the gateway label, and the
currently visible relation data for each relation kind. Relation data
mappings are association lists in arrival order. -/
structure CharmState where
  externalHostname : String
  gatewaySvcs : List GatewaySvc
  defaultGateways : String
  selfApp : String
  selfNs : String
  ingressPresent : Bool
  ingressData : List RouteEntry
  authPresent : Bool
  authData : List AuthRoute
deriving DecidableEq, Repr

/-- Python truthiness of an optional string: None and the empty string
are falsy. -/
def truthyOpt : Option String → Bool
  | none => false
  | some s => s ≠ ""

/-- Embeds Operator._get_gateway_address: return the external-hostname
config verbatim when truthy; otherwise read the first matching gateway
service, return none when there is no service or no load-balancer
ingress entry, and otherwise the first entry's hostname, falling back to
its ip. -/
def get_gateway_address (hostnameCfg : String) (svcs : List GatewaySvc) : Option String :=
  if hostnameCfg ≠ "" then some hostnameCfg
  else
    match svcs with
    | [] => none
    | s :: _ =>
      match s.lbIngress with
      | [] => none
      | a :: _ =>
        match a.hostname with
        | some h => some h
        | none => a.ip

/-- Gateway address as handle_ingress and handle_ingress_per_unit
resolve it from the charm state. -/
def gatewayAddress (s : CharmState) : Option String :=
  get_gateway_address s.externalHostname s.gatewaySvcs

/-- Boolean comparison of route keys used when modelling dict deletion
and filtering. -/
def keyEq (a b : RouteKey) : Bool := a == b

/-- The sort order of Python sorted(..., key=lambda tup: tup[0][0].id):
compare the numeric relation instance ids. -/
def relIdLe (a b : RouteEntry) : Prop := a.1.1 ≤ b.1.1

instance : DecidableRel relIdLe := fun a b => Nat.decLe a.1.1 b.1.1

instance : IsTotal RouteEntry relIdLe := ⟨fun a b => Nat.le_total a.1.1 b.1.1⟩

instance : IsTrans RouteEntry relIdLe := ⟨fun _ _ _ h h2 => Nat.le_trans h h2⟩

/-- Embeds the routes dict comprehension of handle_ingress: sort the
relation data items by relation id (Python sorted is a stable sort on
the key, as is insertion sort over the non-strict key order), then drop
entries declared by this application itself. -/
def aggregate (selfApp : String) (dataList : List RouteEntry) : List RouteEntry :=
  (dataList.insertionSort relIdLe).filter (fun e => e.1.2 != selfApp)

/-- The route map handle_ingress builds before the broken-relation
deletion: empty when the ingress interface is falsy. -/
def activeRoutes (s : CharmState) : List RouteEntry :=
  if s.ingressPresent then aggregate s.selfApp s.ingressData else []

/-- The events a shared-ingress pass can be triggered by; only
relation-broken carries data the handler inspects. -/
inductive IngressEvent where
  | relationChanged
  | relationDeparted
  | relationBroken (relId : Nat) (app : String)
deriving DecidableEq, Repr

/-- Embeds the Python del routes[(event.relation, event.app)] on a
relation-broken event: removal of the key when present, a KeyError
otherwise. Other events leave the map unchanged. -/
def routesAfterEvent (routes : List RouteEntry) : IngressEvent → Except String (List RouteEntry)
  | .relationBroken relId app =>
    if (relId, app) ∈ routes.map Prod.fst then
      .ok (routes.filter (fun e => !(keyEq e.1 (relId, app))))
    else
      .error "KeyError"
  | _ => .ok routes

/-- Splits a character list at commas, accumulating the current piece;
the embedding of Python str.split(",") over the string's characters. -/
def splitCommaAux : List Char → List Char → List String
  | [], acc => [String.mk acc.reverse]
  | c :: cs, acc =>
    if c = ',' then String.mk acc.reverse :: splitCommaAux cs []
    else splitCommaAux cs (c :: acc)

/-- Python str.split(","): always yields at least one piece; splitting
the empty string yields one empty piece. -/
def splitComma (s : String) : List String :=
  splitCommaAux s.toList []

/-- The first element of config default-gateways split on commas,
matching Python split(",")[0] (never empty: splitting the empty string
yields one empty piece). -/
def gatewayName (s : CharmState) : String :=
  (splitComma s.defaultGateways).headD ""

/-- The keyword set passed to the virtual service template after
get_kwargs fills defaults. -/
structure VSKwargs where
  gateway : String
  ns : String
  prefixPath : String
  rewrite : String
  service : String
  port : Nat
deriving DecidableEq, Repr

/-- Embeds get_kwargs of handle_ingress: start from the gateway name and
the route fields, default the namespace to the model name and the
rewrite to the route's own prefix. -/
def get_kwargs (gateway selfNs : String) (route : Route) : VSKwargs :=
  { gateway := gateway
    ns := route.ns.getD selfNs
    prefixPath := route.prefixPath
    rewrite := route.rewrite.getD route.prefixPath
    service := route.service
    port := route.port }

/-- Modelled from the spec: the Resource Renderer for the
virtual_service.yaml.j2 template, an external collaborator whose file is
not part of the reconciliation core; a pure, deterministic function of
its fields rendering one fragment per descriptor. -/
def renderVirtualService (k : VSKwargs) : String :=
  "virtualservice gateway=" ++ k.gateway ++ " namespace=" ++ k.ns ++
    " prefix=" ++ k.prefixPath ++ " rewrite=" ++ k.rewrite ++
    " service=" ++ k.service ++ " port=" ++ toString k.port ++ "\n"

/-- The concatenation of rendered virtual service fragments over the
aggregated routes, in order, matching the join in handle_ingress. -/
def renderRoutes (s : CharmState) (routes : List RouteEntry) : String :=
  String.join (routes.map (fun e => renderVirtualService (get_kwargs (gatewayName s) s.selfNs e.2)))

/-- Result of one shared-ingress reconciliation pass: status set,
whether the event was deferred, the aggregated routes used for
rendering, the rendered document and the mutation trace. -/
structure IngressResult where
  status : Option Status
  deferred : Bool
  routes : List RouteEntry
  renderedDoc : String
  effects : List Effect
deriving DecidableEq, Repr

/-- Embeds Operator.handle_ingress: gate on the gateway address (waiting
plus defer, no mutation), aggregate and sort the route declarations,
drop the broken relation's entry (KeyError when absent), render, then
delete by owner label and apply when any route remains. -/
def handle_ingress (s : CharmState) (ev : IngressEvent) : Except String IngressResult :=
  if !(truthyOpt (gatewayAddress s)) then
    .ok { status := some (.waiting "Waiting for gateway address")
          deferred := true
          routes := []
          renderedDoc := ""
          effects := [] }
  else
    match routesAfterEvent (activeRoutes s) ev with
    | .error e => .error e
    | .ok routes =>
      let doc := renderRoutes s routes
      .ok { status := some .active
            deferred := false
            routes := routes
            renderedDoc := doc
            effects :=
              Effect.delete "virtualservices,destinationrules"
                  ("app.juju.is/created-by=" ++ s.selfApp) ::
                (if routes.isEmpty then [] else [Effect.apply doc]) }

/-- Python truthiness of ar.get("service"): present and nonempty. -/
def serviceTruthy (r : AuthRoute) : Bool :=
  match r.service with
  | none => false
  | some s => s ≠ ""

/-- Modelled from the spec: the contents of src/rbac_config.yaml, a
static manifest file outside the reconciliation core, read verbatim when
any auth route is declared. -/
def rbac_config_text : String := "rbac config manifest"

/-- Modelled from the spec: the Resource Renderer for the
auth_filter.yaml.j2 template, an external collaborator; a pure,
deterministic function of its fields rendering one filter fragment per
auth descriptor, with header lists rendered as exact-match lists. -/
def renderAuthFilter (ns : String) (r : AuthRoute) : String :=
  "authfilter namespace=" ++ ns ++
    " request_headers=" ++ toString (r.allowedRequestHeaders.map (fun h => "exact: " ++ h)) ++
    " response_headers=" ++ toString (r.allowedResponseHeaders.map (fun h => "exact: " ++ h)) ++
    " port=" ++ toString r.port ++ " service=" ++ r.service.getD "" ++ "\n"

/-- The list of auth route declarations the pass works on: the values of
ingress-auth relation data, empty when the interface is falsy. -/
def activeAuthRoutes (s : CharmState) : List AuthRoute :=
  if s.authPresent then s.authData else []

/-- Result of one auth-route reconciliation pass: status set (none means
the handler left the status untouched), the rendered filter fragments,
the combined manifest text and the mutation trace. -/
structure AuthResult where
  status : Option Status
  filters : List String
  manifests : String
  effects : List Effect
deriving DecidableEq, Repr

/-- Embeds Operator.handle_ingress_auth: gate on every declaration
carrying a truthy service (waiting and return otherwise, nothing
rendered, no mutation); otherwise render one filter fragment per
declaration, join the rbac manifest (only when declarations exist) with
the filters dropping falsy pieces, delete by owner label, then apply. -/
def handle_ingress_auth (s : CharmState) : AuthResult :=
  let authRoutes := activeAuthRoutes s
  if !(authRoutes.all serviceTruthy) then
    { status := some (.waiting "Waiting for auth route connection information.")
      filters := []
      manifests := ""
      effects := [] }
  else
    let rbac : Option String := if authRoutes.isEmpty then none else some rbac_config_text
    let filters := authRoutes.map (renderAuthFilter s.selfNs)
    let authFilters := String.join filters
    let manifests :=
      String.intercalate "\n" (([rbac.getD "", authFilters]).filter (fun m => m ≠ ""))
    { status := none
      filters := filters
      manifests := manifests
      effects :=
        [Effect.delete "envoyfilters,rbacconfigs" ("app.juju.is/created-by=" ++ s.selfApp),
         Effect.apply manifests] }

/-- Modelled from the spec: the Resource Renderer for the per-unit
virtual service template, rendered from the gateway address and the
request; pure and deterministic in its fields. -/
def renderPerUnit (gatewayAddr : String) (req : PerUnitRequest) : String :=
  "virtualservice gateway=" ++ gatewayAddr ++ " for=" ++ req.name ++
    " units=" ++ toString (req.units.map (fun u => u.name ++ ":" ++ u.prefixPath)) ++ "\n"

/-- Result of one per-unit ingress pass: status set, whether the event
was deferred, and the mutation trace. -/
structure PerUnitResult where
  status : Option Status
  deferred : Bool
  effects : List Effect
deriving DecidableEq, Repr

/-- Embeds Operator.handle_ingress_per_unit: gate on the gateway address
(waiting plus defer, no mutation); otherwise delete by the
created-by and for labels, apply the rendered per-unit document, and
send each unit its URL built from the gateway address and unit prefix. -/
def handle_ingress_per_unit (s : CharmState) (req : PerUnitRequest) : PerUnitResult :=
  match gatewayAddress s with
  | gw =>
    if !(truthyOpt gw) then
      { status := some (.waiting "Waiting for gateway address")
        deferred := true
        effects := [] }
    else
      let addr := gw.getD ""
      { status := some .active
        deferred := false
        effects :=
          [Effect.delete "virtualservices,destinationrules"
              ("app.juju.is/created-by=" ++ s.selfApp ++ ",app.juju.is/for=" ++ req.name),
           Effect.apply (renderPerUnit addr req),
           Effect.sendUrls (req.units.map
              (fun u => (u.name, "http://" ++ addr ++ "/" ++ u.prefixPath ++ "/")))] }

/-- Modelled from the spec: the Resource Renderer for the
gateway.yaml.j2 template, an external collaborator; a pure function of
the gateway name rendering one fragment per configured gateway. -/
def renderGateway (name : String) : String :=
  "gateway name=" ++ name ++ "\n"

/-- The manifest handle_default_gateways builds: the join of one
rendered gateway fragment per comma-separated configured name. -/
def gatewayManifest (s : CharmState) : String :=
  String.join ((splitComma s.defaultGateways).map renderGateway)

/-- Embeds Operator.handle_default_gateways: render the configured
gateways, delete gateways by owner label, then apply the manifest. The
handler performs no gateway-address gate and calls no other handler. -/
def handle_default_gateways (s : CharmState) : List Effect :=
  [Effect.delete "gateways" ("app.juju.is/created-by=" ++ s.selfApp),
   Effect.apply (gatewayManifest s)]

/-- The mutation trace of a shared-ingress pass: the effects of a normal
result, and the empty trace when the pass raised (a raise happens before
any kubectl call in handle_ingress). -/
def ingressEffects : Except String IngressResult → List Effect
  | .ok r => r.effects
  | .error _ => []

/-- Whether an effect trace contains the delete call the shared-ingress
pass issues over virtualservices and destinationrules. -/
def mentionsSharedIngressDelete (effects : List Effect) : Bool :=
  effects.any (fun e =>
    match e with
    | .delete kinds _ => kinds == "virtualservices,destinationrules"
    | _ => false)

/-- The strict order on route entries by relation instance id; with
distinct ids this is the order the aggregated output is sorted in. -/
def entryLt (a b : RouteEntry) : Prop := a.1.1 < b.1.1

instance : IsAntisymm RouteEntry entryLt :=
  ⟨fun _ _ h h2 => absurd (Nat.lt_trans h h2) (Nat.lt_irrefl _)⟩

/-- A charm state whose gateway address is unavailable: no hostname
override and no gateway service in the cluster. -/
def sNoGateway : CharmState :=
  { externalHostname := ""
    gatewaySvcs := []
    defaultGateways := "default-gateway"
    selfApp := "istio-pilot"
    selfNs := "istio-system"
    ingressPresent := true
    ingressData := [((3, "client-app"),
      { ns := none, prefixPath := "/foo", rewrite := none, service := "svc", port := 80 })]
    authPresent := false
    authData := [] }

/-- A charm state with the ingress-auth interface present but no auth
declarations. -/
def sAuthEmpty : CharmState :=
  { externalHostname := ""
    gatewaySvcs := []
    defaultGateways := "default-gateway"
    selfApp := "istio-pilot"
    selfNs := "istio-system"
    ingressPresent := false
    ingressData := []
    authPresent := true
    authData := [] }

/-- A shared-ingress route declaration with all defaults omitted. -/
def routeA : Route :=
  { ns := none, prefixPath := "/a", rewrite := none, service := "svc-a", port := 80 }

/-- A shared-ingress route declaration with namespace and rewrite set. -/
def routeB : Route :=
  { ns := some "nsb", prefixPath := "/b", rewrite := some "/", service := "svc-b", port := 8080 }

/-- A charm state with the gateway available and two routes declared out
of relation-id order by two foreign applications. -/
def sTwoRoutes : CharmState :=
  { externalHostname := "gw.example.com"
    gatewaySvcs := []
    defaultGateways := "default-gateway,extra"
    selfApp := "istio-pilot"
    selfNs := "istio-system"
    ingressPresent := true
    ingressData := [((2, "appB"), routeB), ((1, "appA"), routeA)]
    authPresent := false
    authData := [] }

/-- The aggregated route list of sTwoRoutes: both entries, sorted by
relation id. -/
def aggTwo : List RouteEntry := [((1, "appA"), routeA), ((2, "appB"), routeB)]

/-- The aggregated route list of sTwoRoutes once the relation of appB is
broken. -/
def aggOne : List RouteEntry := [((1, "appA"), routeA)]

/-- The result of a shared-ingress pass over sTwoRoutes outside a
relation-broken event. -/
def resTwoRoutes : IngressResult :=
  { status := some Status.active
    deferred := false
    routes := aggTwo
    renderedDoc := renderRoutes sTwoRoutes aggTwo
    effects := [Effect.delete "virtualservices,destinationrules"
                  "app.juju.is/created-by=istio-pilot",
                Effect.apply (renderRoutes sTwoRoutes aggTwo)] }

/-- The result of a shared-ingress pass over sTwoRoutes triggered by the
broken relation of appB. -/
def resExcluded : IngressResult :=
  { status := some Status.active
    deferred := false
    routes := aggOne
    renderedDoc := renderRoutes sTwoRoutes aggOne
    effects := [Effect.delete "virtualservices,destinationrules"
                  "app.juju.is/created-by=istio-pilot",
                Effect.apply (renderRoutes sTwoRoutes aggOne)] }

/-- A charm state with the gateway available whose only route
declaration was published by the charm itself, so the self filter leaves
the route map empty. -/
def sSelfRoute : CharmState :=
  { externalHostname := "gw.example.com"
    gatewaySvcs := []
    defaultGateways := "default-gateway"
    selfApp := "istio-pilot"
    selfNs := "istio-system"
    ingressPresent := true
    ingressData := [((4, "istio-pilot"), routeA)]
    authPresent := false
    authData := [] }

/-- An auth declaration missing its service field. -/
def authBad : AuthRoute :=
  { service := none, port := 8080, allowedRequestHeaders := [], allowedResponseHeaders := [] }

/-- A complete auth declaration. -/
def authGood1 : AuthRoute :=
  { service := some "auth-svc", port := 8080
    allowedRequestHeaders := ["x-user"], allowedResponseHeaders := [] }

/-- A second complete auth declaration. -/
def authGood2 : AuthRoute :=
  { service := some "auth-two", port := 9090
    allowedRequestHeaders := [], allowedResponseHeaders := ["x-resp"] }

/-- A third complete auth declaration. -/
def authGood3 : AuthRoute :=
  { service := some "auth-three", port := 7070
    allowedRequestHeaders := [], allowedResponseHeaders := [] }

/-- Three auth declarations of which exactly one lacks service. -/
def sAuthBad : CharmState :=
  { sAuthEmpty with authData := [authGood1, authBad, authGood3] }

/-- Three complete auth declarations, with the gateway unavailable (no
override, no gateway service). -/
def sAuthGood : CharmState :=
  { sAuthEmpty with authData := [authGood1, authGood2, authGood3] }

/-- Three route declarations with distinct relation ids, in one arrival
order. -/
def permL1 : List RouteEntry :=
  [((3, "appC"), routeA), ((1, "appA"), routeA), ((2, "istio-pilot"), routeB)]

/-- The same three declarations in another arrival order. -/
def permL2 : List RouteEntry :=
  [((1, "appA"), routeA), ((2, "istio-pilot"), routeB), ((3, "appC"), routeA)]

/-- C8: the gateway-address locator returns the configured hostname
override verbatim whenever set, independently of cluster state; it
returns none when no gateway service exists or the service has no
load-balancer ingress entry yet (a total function: the not-provisioned
case never raises); and when an entry exists it prefers the hostname
over the bare ip, falling back to the ip when only the ip is present. -/
theorem gateway_locator_resolution (cfg hn ipAddr : String) (svc : GatewaySvc)
    (tl svcs svcs2 : List GatewaySvc) (rest : List LBIngress) :
    (cfg ≠ "" → get_gateway_address cfg svcs = some cfg)
    ∧ (cfg ≠ "" → get_gateway_address cfg svcs = get_gateway_address cfg svcs2)
    ∧ get_gateway_address "" [] = none
    ∧ (svc.lbIngress = [] → get_gateway_address "" (svc :: tl) = none)
    ∧ (svc.lbIngress = { hostname := some hn, ip := some ipAddr } :: rest →
        get_gateway_address "" (svc :: tl) = some hn)
    ∧ (svc.lbIngress = { hostname := none, ip := some ipAddr } :: rest →
        get_gateway_address "" (svc :: tl) = some ipAddr) := by
  refine ⟨fun h => ?_, fun h => ?_, by simp [get_gateway_address], fun h => ?_,
    fun h => ?_, fun h => ?_⟩ <;>
    simp [get_gateway_address, h]

/-- C1: whenever the gateway address resolves to a falsy value, both the
shared-ingress pass and the per-unit-ingress pass set a waiting status,
defer the event, and issue no delete or apply call. -/
theorem gateway_gating (s : CharmState) (ev : IngressEvent) (req : PerUnitRequest)
    (h : truthyOpt (gatewayAddress s) = false) :
    handle_ingress s ev =
      Except.ok { status := some (Status.waiting "Waiting for gateway address")
                  deferred := true
                  routes := []
                  renderedDoc := ""
                  effects := [] }
    ∧ handle_ingress_per_unit s req =
      { status := some (Status.waiting "Waiting for gateway address")
        deferred := true
        effects := [] } := by
  constructor
  · simp [handle_ingress, h]
  · simp [handle_ingress_per_unit, h]

/-- Witness for C1 at a concrete unavailable-gateway state. -/
theorem gateway_gating_witness :
    truthyOpt (gatewayAddress sNoGateway) = false
    ∧ handle_ingress sNoGateway IngressEvent.relationChanged =
        Except.ok { status := some (Status.waiting "Waiting for gateway address")
                    deferred := true
                    routes := []
                    renderedDoc := ""
                    effects := [] }
    ∧ handle_ingress_per_unit sNoGateway { name := "client-app", units := [] } =
        { status := some (Status.waiting "Waiting for gateway address")
          deferred := true
          effects := [] } :=
  ⟨rfl,
    (gateway_gating sNoGateway IngressEvent.relationChanged
      { name := "client-app", units := [] } rfl).1,
    (gateway_gating sNoGateway IngressEvent.relationChanged
      { name := "client-app", units := [] } rfl).2⟩

/-- C3: the auth-route pass on an empty active-declaration set is a
valid terminal state: the gate passes (all of the empty set holds), no
waiting status is set, the label-scoped delete over envoyfilters and
rbacconfigs is issued, and the pass completes with an empty manifest
apply instead of raising. -/
theorem auth_empty_clears (s : CharmState) (h : activeAuthRoutes s = []) :
    handle_ingress_auth s =
      { status := none
        filters := []
        manifests := ""
        effects := [Effect.delete "envoyfilters,rbacconfigs"
                      ("app.juju.is/created-by=" ++ s.selfApp),
                    Effect.apply ""] } := by
  unfold handle_ingress_auth
  rw [h]
  rfl

/-- Witness for C3 at a concrete empty auth-declaration state. -/
theorem auth_empty_clears_witness :
    activeAuthRoutes sAuthEmpty = []
    ∧ handle_ingress_auth sAuthEmpty =
      { status := none
        filters := []
        manifests := ""
        effects := [Effect.delete "envoyfilters,rbacconfigs"
                      "app.juju.is/created-by=istio-pilot",
                    Effect.apply ""] } :=
  ⟨rfl, auth_empty_clears sAuthEmpty rfl⟩

/-- C2: if at least one currently-declared auth descriptor lacks a
truthy service, the auth pass sets a waiting status and returns with
nothing rendered and no delete or apply issued; if every descriptor has
a truthy service, the pass renders exactly one filter fragment per
descriptor. -/
theorem auth_all_or_nothing (s : CharmState) :
    ((∃ r ∈ activeAuthRoutes s, serviceTruthy r = false) →
      handle_ingress_auth s =
        { status := some (Status.waiting "Waiting for auth route connection information.")
          filters := []
          manifests := ""
          effects := [] })
    ∧ ((∀ r ∈ activeAuthRoutes s, serviceTruthy r = true) →
      (handle_ingress_auth s).filters = (activeAuthRoutes s).map (renderAuthFilter s.selfNs)
      ∧ (handle_ingress_auth s).filters.length = (activeAuthRoutes s).length) := by
  constructor
  · rintro ⟨r, hr, hf⟩
    have hall : (activeAuthRoutes s).all serviceTruthy = false := by
      cases hb : (activeAuthRoutes s).all serviceTruthy with
      | false => rfl
      | true => exact absurd (List.all_eq_true.mp hb r hr) (by simp [hf])
    simp [handle_ingress_auth, hall]
  · intro hall
    have hb : (activeAuthRoutes s).all serviceTruthy = true := List.all_eq_true.mpr hall
    refine ⟨?_, ?_⟩ <;> simp [handle_ingress_auth, hb]

/-- Witness for C2: with three declarations of which one lacks service
nothing is rendered and no call is issued; with three complete
declarations exactly three fragments are rendered. -/
theorem auth_all_or_nothing_witness :
    handle_ingress_auth sAuthBad =
      { status := some (Status.waiting "Waiting for auth route connection information.")
        filters := []
        manifests := ""
        effects := [] }
    ∧ (handle_ingress_auth sAuthGood).filters.length = 3 :=
  ⟨(auth_all_or_nothing sAuthBad).1 ⟨authBad, by decide, by decide⟩,
   (((auth_all_or_nothing sAuthGood).2 (by decide)).2).trans (by decide)⟩

/-- C10: the auth pass never consults the gateway address: its result is
unchanged under any replacement of the hostname override and the gateway
services, and whenever every declaration carries a truthy service it
issues the label-scoped delete and the apply (in particular when the
gateway address is unavailable). -/
theorem auth_ignores_gateway (s : CharmState) (cfg : String) (gsvcs : List GatewaySvc) :
    handle_ingress_auth { s with externalHostname := cfg, gatewaySvcs := gsvcs }
      = handle_ingress_auth s
    ∧ ((activeAuthRoutes s).all serviceTruthy = true →
        (handle_ingress_auth s).effects =
          [Effect.delete "envoyfilters,rbacconfigs" ("app.juju.is/created-by=" ++ s.selfApp),
           Effect.apply (handle_ingress_auth s).manifests]) := by
  constructor
  · cases s
    rfl
  · intro hb
    simp [handle_ingress_auth, hb]

/-- Witness for C10 at a state whose gateway address is unavailable and
whose three declarations are complete. -/
theorem auth_ignores_gateway_witness :
    truthyOpt (gatewayAddress sAuthGood) = false
    ∧ handle_ingress_auth { sAuthGood with externalHostname := "other", gatewaySvcs := [] }
        = handle_ingress_auth sAuthGood
    ∧ (handle_ingress_auth sAuthGood).effects =
        [Effect.delete "envoyfilters,rbacconfigs" "app.juju.is/created-by=istio-pilot",
         Effect.apply (handle_ingress_auth sAuthGood).manifests] :=
  ⟨rfl,
   (auth_ignores_gateway sAuthGood "other" []).1,
   (auth_ignores_gateway sAuthGood "other" []).2 (by decide)⟩

/-- C7: two shared-ingress passes over identical snapshots and the same
trigger produce the same rendered document and the same effect trace,
including the delete selector. -/
theorem ingress_pass_deterministic (s1 s2 : CharmState) (ev : IngressEvent)
    (r1 r2 : IngressResult) (hs : s1 = s2)
    (h1 : handle_ingress s1 ev = Except.ok r1)
    (h2 : handle_ingress s2 ev = Except.ok r2) :
    r1.renderedDoc = r2.renderedDoc ∧ r1.effects = r2.effects := by
  subst hs
  rw [h1] at h2
  injection h2 with h
  subst h
  exact ⟨rfl, rfl⟩

/-- Witness for C7 at a concrete two-route state. -/
theorem ingress_pass_deterministic_witness :
    handle_ingress sTwoRoutes IngressEvent.relationChanged = Except.ok resTwoRoutes
    ∧ resTwoRoutes.renderedDoc = resTwoRoutes.renderedDoc
    ∧ resTwoRoutes.effects = resTwoRoutes.effects :=
  have h : handle_ingress sTwoRoutes IngressEvent.relationChanged = Except.ok resTwoRoutes := by
    rfl
  ⟨h, ingress_pass_deterministic sTwoRoutes sTwoRoutes IngressEvent.relationChanged
        resTwoRoutes resTwoRoutes rfl h h⟩

/-- C4 counterexample: at the concrete two-route state the shared
ingress pass issues a delete over virtualservices and destinationrules,
but the default-gateway pass's trace contains no such delete, so the
default-gateway pass does not invoke the shared-ingress pass. -/
theorem default_gateways_no_dependent_pass :
    Effect.delete "virtualservices,destinationrules" "app.juju.is/created-by=istio-pilot"
      ∈ ingressEffects (handle_ingress sTwoRoutes IngressEvent.relationChanged)
    ∧ mentionsSharedIngressDelete (handle_default_gateways sTwoRoutes) = false :=
  ⟨List.Mem.head _, rfl⟩

/-- C4 amended: the default-gateway pass deletes the label-scoped
gateway resources and re-applies the rendered gateway manifest, and does
nothing else: it does not invoke the shared-ingress pass (its trace
contains no delete over virtualservices and destinationrules). -/
theorem default_gateways_replace_only (s : CharmState) :
    handle_default_gateways s =
      [Effect.delete "gateways" ("app.juju.is/created-by=" ++ s.selfApp),
       Effect.apply (gatewayManifest s)]
    ∧ mentionsSharedIngressDelete (handle_default_gateways s) = false :=
  ⟨rfl, rfl⟩

/-- Once the gateway address is truthy, the shared-ingress pass is the
replace sequence over whatever the broken-relation deletion leaves, and
raises whatever that deletion raises. -/
theorem handle_ingress_available (s : CharmState) (ev : IngressEvent)
    (hgw : truthyOpt (gatewayAddress s) = true) :
    handle_ingress s ev =
      match routesAfterEvent (activeRoutes s) ev with
      | .error e => .error e
      | .ok routes =>
        .ok { status := some Status.active
              deferred := false
              routes := routes
              renderedDoc := renderRoutes s routes
              effects :=
                Effect.delete "virtualservices,destinationrules"
                    ("app.juju.is/created-by=" ++ s.selfApp) ::
                  (if routes.isEmpty then [] else [Effect.apply (renderRoutes s routes)]) } := by
  unfold handle_ingress
  rw [hgw]
  rfl

/-- C5: on a relation-broken pass whose broken key is present in the
self-filtered route map, the resulting route set is exactly the
aggregated set minus that key, no route keyed by the broken pair
remains, and the rendered document is the join over that reduced set —
even though the declaration is still present in the raw relation data
(hypothesis hkey). -/
theorem broken_relation_excluded (s : CharmState) (relId : Nat) (app : String)
    (res : IngressResult)
    (hgw : truthyOpt (gatewayAddress s) = true)
    (hkey : (relId, app) ∈ (activeRoutes s).map Prod.fst)
    (hres : handle_ingress s (IngressEvent.relationBroken relId app) = Except.ok res) :
    res.routes = (activeRoutes s).filter (fun e => !(keyEq e.1 (relId, app)))
    ∧ res.routes.filter (fun e => keyEq e.1 (relId, app)) = []
    ∧ res.renderedDoc = renderRoutes s res.routes := by
  rw [handle_ingress_available s _ hgw] at hres
  simp only [routesAfterEvent] at hres
  rw [if_pos hkey] at hres
  injection hres with h
  subst h
  refine ⟨rfl, ?_, rfl⟩
  simp [List.filter_filter, Bool.and_not_self, List.filter_false]

/-- Witness for C5: breaking the relation of appB removes its route even
though it is still visible in the raw data of sTwoRoutes. -/
theorem broken_relation_excluded_witness :
    truthyOpt (gatewayAddress sTwoRoutes) = true
    ∧ (2, "appB") ∈ (activeRoutes sTwoRoutes).map Prod.fst
    ∧ handle_ingress sTwoRoutes (IngressEvent.relationBroken 2 "appB") = Except.ok resExcluded
    ∧ (resExcluded.routes
        = (activeRoutes sTwoRoutes).filter (fun e => !(keyEq e.1 (2, "appB")))
      ∧ resExcluded.routes.filter (fun e => keyEq e.1 (2, "appB")) = []
      ∧ resExcluded.renderedDoc = renderRoutes sTwoRoutes resExcluded.routes) :=
  have h3 : handle_ingress sTwoRoutes (IngressEvent.relationBroken 2 "appB")
      = Except.ok resExcluded := by rfl
  ⟨rfl, by decide, h3,
   broken_relation_excluded sTwoRoutes 2 "appB" resExcluded rfl (by decide) h3⟩

/-- C9: on a relation-broken pass whose broken key is absent from the
self-filtered route map, the unguarded dict deletion raises KeyError and
the pass issues no delete or apply call. -/
theorem broken_relation_missing_key_raises (s : CharmState) (relId : Nat) (app : String)
    (hgw : truthyOpt (gatewayAddress s) = true)
    (hmiss : (relId, app) ∉ (activeRoutes s).map Prod.fst) :
    handle_ingress s (IngressEvent.relationBroken relId app) = Except.error "KeyError"
    ∧ ingressEffects (handle_ingress s (IngressEvent.relationBroken relId app)) = [] := by
  have hc := handle_ingress_available s (IngressEvent.relationBroken relId app) hgw
  have herr : routesAfterEvent (activeRoutes s) (IngressEvent.relationBroken relId app)
      = Except.error "KeyError" := by
    simp only [routesAfterEvent]
    rw [if_neg hmiss]
  rw [hc, herr]
  exact ⟨rfl, rfl⟩

/-- Witness for C9: the only declaration of sSelfRoute is self-declared,
so it is filtered out and breaking its relation raises KeyError with no
cluster mutation. -/
theorem broken_relation_missing_key_raises_witness :
    truthyOpt (gatewayAddress sSelfRoute) = true
    ∧ (4, "istio-pilot") ∉ (activeRoutes sSelfRoute).map Prod.fst
    ∧ handle_ingress sSelfRoute (IngressEvent.relationBroken 4 "istio-pilot")
        = Except.error "KeyError"
    ∧ ingressEffects (handle_ingress sSelfRoute (IngressEvent.relationBroken 4 "istio-pilot"))
        = [] :=
  ⟨rfl, by decide,
   (broken_relation_missing_key_raises sSelfRoute 4 "istio-pilot" rfl (by decide)).1,
   (broken_relation_missing_key_raises sSelfRoute 4 "istio-pilot" rfl (by decide)).2⟩

/-- C6: for declarations with pairwise distinct relation ids, the
aggregated sequence (after excluding self-originated declarations) is
the same for every arrival order, and is sorted strictly ascending by
relation id. -/
theorem ordering_determinism (selfApp : String) (l1 l2 : List RouteEntry)
    (hperm : l1.Perm l2) (hnd : (l1.map (fun e => e.1.1)).Nodup) :
    aggregate selfApp l1 = aggregate selfApp l2
    ∧ (aggregate selfApp l1).Pairwise entryLt := by
  have hagg : ∀ l : List RouteEntry, (l.map (fun e => e.1.1)).Nodup →
      (aggregate selfApp l).Pairwise entryLt := by
    intro l hl
    have hs : (l.insertionSort relIdLe).Pairwise relIdLe :=
      List.sorted_insertionSort relIdLe l
    have hf : (aggregate selfApp l).Pairwise relIdLe := hs.filter _
    have hndm : ((l.insertionSort relIdLe).map (fun e => e.1.1)).Nodup :=
      (((List.perm_insertionSort relIdLe l).map (fun e => e.1.1)).symm).nodup hl
    have hnds2 : (((l.insertionSort relIdLe).filter (fun e => e.1.2 != selfApp)).map
        (fun e => e.1.1)).Nodup :=
      List.Nodup.sublist
        (List.Sublist.map (fun e => e.1.1) (List.filter_sublist (l.insertionSort relIdLe)))
        hndm
    have hnds : ((aggregate selfApp l).map (fun e => e.1.1)).Nodup := hnds2
    have hne : (aggregate selfApp l).Pairwise (fun a b => a.1.1 ≠ b.1.1) :=
      List.pairwise_map.mp hnds
    exact (hf.and hne).imp (fun h => Nat.lt_of_le_of_ne h.1 h.2)
  have hnd2 : (l2.map (fun e => e.1.1)).Nodup := (hperm.map (fun e => e.1.1)).nodup hnd
  have hap : (aggregate selfApp l1).Perm (aggregate selfApp l2) :=
    List.Perm.filter _
      (((List.perm_insertionSort relIdLe l1).trans hperm).trans
        (List.perm_insertionSort relIdLe l2).symm)
  exact ⟨List.eq_of_perm_of_sorted hap (hagg l1 hnd) (hagg l2 hnd2), hagg l1 hnd⟩

/-- Witness for C6: two arrival orders of the same three declarations
with distinct relation ids aggregate identically and sorted. -/
theorem ordering_determinism_witness :
    permL1.Perm permL2
    ∧ (permL1.map (fun e => e.1.1)).Nodup
    ∧ aggregate "istio-pilot" permL1 = aggregate "istio-pilot" permL2
    ∧ (aggregate "istio-pilot" permL1).Pairwise entryLt :=
  ⟨by decide, by decide,
   (ordering_determinism "istio-pilot" permL1 permL2 (by decide) (by decide)).1,
   (ordering_determinism "istio-pilot" permL1 permL2 (by decide) (by decide)).2⟩
